import Mathlib

/-!
Verification development for the FCScheduler schedule engine (src/app.py):
the time parser (`safe_parse_datetime`), the schedule normalizer
(`load_data`), the pairwise conflict detector, and the two exporters
(`generate_ics`, `generate_teamsnap_csv`).

Modelling conventions:
* Python `datetime` objects are naive wall-clock timestamps; we model them
  as a calendar date plus a whole-second time of day.
* Absolute instants handled arithmetically (the `Start`/`End` columns and
  the conflict gaps) are modelled as rational numbers of seconds; a
  `timedelta` of 30 minutes is 1800 seconds.
* `pandas.to_datetime` applied to a string is external library behaviour;
  the definitions are parametric in a function `toDT : String → Option
  DateTime` describing it.
* Fallible steps (Python exceptions caught by the app, or a raise escaping
  `load_data`) are modelled with `Option`/`Except`.
-/

namespace FCS

/-- A time of day, mirroring Python `datetime.time` with whole seconds
(the formats accepted by the app never produce fractional seconds). -/
structure TimeOfDay where
  hour : Nat
  minute : Nat
  second : Nat
deriving DecidableEq, Repr

/-- A calendar date, mirroring Python `datetime.date`. -/
structure CalDate where
  year : Nat
  month : Nat
  day : Nat
deriving DecidableEq, Repr

/-- A naive timestamp, mirroring Python `datetime.datetime` (no zone). -/
structure DateTime where
  date : CalDate
  time : TimeOfDay
deriving DecidableEq, Repr

/-- A scalar cell value as delivered by `pandas.read_excel`, distinguished
the way `safe_parse_datetime` (src/app.py lines 10-36) distinguishes its
arguments: missing (None/NaN/NaT), a string, a `datetime` instance, a
`datetime.time` instance, or any other object. -/
inductive PyVal where
  | pyNone
  | pyStr (s : String)
  | pyDatetime (dt : DateTime)
  | pyTime (t : TimeOfDay)
  | pyOther
deriving DecidableEq, Repr

/-- `pd.isna` on a scalar cell (line 11 of src/app.py). -/
def isNA : PyVal → Bool
  | .pyNone => true
  | _ => false

/-! ### The `strptime` fragment used by the app

`safe_parse_datetime` tries the formats `"%I:%M %p"`, `"%H:%M"`,
`"%H:%M:%S"` in order.  CPython's `_strptime` compiles each format to a
regular expression; the relevant field patterns are
`%I ↦ 1[0-2]|0[1-9]|[1-9]`, `%H ↦ 2[0-3]|[0-1]\d|\d`,
`%M ↦ [0-5]\d|\d`, `%S ↦ 6[0-1]|[0-5]\d|\d`, a whitespace run in the
format matches one or more whitespace characters, and `%p` matches
`AM`/`PM` case-insensitively.  The whole string must be consumed.  The
matchers below return every candidate match in the regex's preference
order, and `tryEach` runs the continuation over them, giving the same
backtracking behaviour as the compiled regex. -/

/-- Numeric value of a digit character. -/
def dval (c : Char) : Nat := c.toNat - 48

/-- Run a continuation over candidate matches in order, returning the
first success (regex alternation with backtracking). -/
def tryEach {α β : Type} : List α → (α → Option β) → Option β
  | [], _ => none
  | a :: as, f =>
    match f a with
    | some b => some b
    | none => tryEach as f

/-- Candidate matches for `%I` (pattern `1[0-2]|0[1-9]|[1-9]`). -/
def matchI (cs : List Char) : List (Nat × List Char) :=
  (match cs with
   | '1' :: c :: r => if '0' ≤ c ∧ c ≤ '2' then [(10 + dval c, r)] else []
   | _ => []) ++
  (match cs with
   | '0' :: c :: r => if '1' ≤ c ∧ c ≤ '9' then [(dval c, r)] else []
   | _ => []) ++
  (match cs with
   | c :: r => if '1' ≤ c ∧ c ≤ '9' then [(dval c, r)] else []
   | [] => [])

/-- Candidate matches for `%H` (pattern `2[0-3]|[0-1]\d|\d`). -/
def matchH (cs : List Char) : List (Nat × List Char) :=
  (match cs with
   | '2' :: c :: r => if '0' ≤ c ∧ c ≤ '3' then [(20 + dval c, r)] else []
   | _ => []) ++
  (match cs with
   | c1 :: c2 :: r =>
      if ('0' ≤ c1 ∧ c1 ≤ '1') ∧ ('0' ≤ c2 ∧ c2 ≤ '9') then
        [(10 * dval c1 + dval c2, r)]
      else []
   | _ => []) ++
  (match cs with
   | c :: r => if '0' ≤ c ∧ c ≤ '9' then [(dval c, r)] else []
   | [] => [])

/-- Candidate matches for `%M` (pattern `[0-5]\d|\d`). -/
def matchM (cs : List Char) : List (Nat × List Char) :=
  (match cs with
   | c1 :: c2 :: r =>
      if ('0' ≤ c1 ∧ c1 ≤ '5') ∧ ('0' ≤ c2 ∧ c2 ≤ '9') then
        [(10 * dval c1 + dval c2, r)]
      else []
   | _ => []) ++
  (match cs with
   | c :: r => if '0' ≤ c ∧ c ≤ '9' then [(dval c, r)] else []
   | [] => [])

/-- Candidate matches for `%S` (pattern `6[0-1]|[0-5]\d|\d`). -/
def matchS (cs : List Char) : List (Nat × List Char) :=
  (match cs with
   | '6' :: c :: r => if '0' ≤ c ∧ c ≤ '1' then [(60 + dval c, r)] else []
   | _ => []) ++
  matchM cs

/-- Lower-case an ASCII letter (for the case-insensitive `%p` match). -/
def lowerChar (c : Char) : Char :=
  if 'A' ≤ c ∧ c ≤ 'Z' then Char.ofNat (c.toNat + 32) else c

/-- Match `%p` (`AM` or `PM`, case-insensitively); `true` means PM. -/
def matchAmPm : List Char → Option (Bool × List Char)
  | a :: m :: r =>
    if lowerChar a = 'a' ∧ lowerChar m = 'm' then some (false, r)
    else if lowerChar a = 'p' ∧ lowerChar m = 'm' then some (true, r)
    else none
  | _ => none

/-- Consume the run of whitespace that a whitespace character in the
format requires (one or more whitespace characters, greedily). -/
def dropWs1 : List Char → Option (List Char)
  | c :: r => if c.isWhitespace then some (r.dropWhile Char.isWhitespace) else none
  | [] => none

/-- `strptime`'s 12-hour clock adjustment for `%I` with `%p`. -/
def adjustAmPm (h : Nat) (pm : Bool) : Nat :=
  if pm then (if h ≠ 12 then h + 12 else h)
  else (if h = 12 then 0 else h)

/-- `datetime.strptime(s, "%I:%M %p").time()`, `none` on `ValueError`. -/
def parseIMp (s : String) : Option TimeOfDay :=
  tryEach (matchI s.toList) (fun hr =>
    match hr.2 with
    | ':' :: r1 =>
      tryEach (matchM r1) (fun mr =>
        match dropWs1 mr.2 with
        | some r2 =>
          match matchAmPm r2 with
          | some (pm, []) => some ⟨adjustAmPm hr.1 pm, mr.1, 0⟩
          | _ => none
        | none => none)
    | _ => none)

/-- `datetime.strptime(s, "%H:%M").time()`, `none` on `ValueError`. -/
def parseHM (s : String) : Option TimeOfDay :=
  tryEach (matchH s.toList) (fun hr =>
    match hr.2 with
    | ':' :: r1 =>
      tryEach (matchM r1) (fun mr =>
        if mr.2 = [] then some ⟨hr.1, mr.1, 0⟩ else none)
    | _ => none)

/-- `datetime.strptime(s, "%H:%M:%S").time()`, `none` on `ValueError`.
A leap-second match (`%S` = 60 or 61) makes the `datetime` constructor
raise `ValueError`, which the app's `except ValueError: continue` treats
exactly like a format mismatch, hence the `≤ 59` guard. -/
def parseHMS (s : String) : Option TimeOfDay :=
  tryEach (matchH s.toList) (fun hr =>
    match hr.2 with
    | ':' :: r1 =>
      tryEach (matchM r1) (fun mr =>
        match mr.2 with
        | ':' :: r2 =>
          tryEach (matchS r2) (fun sr =>
            if sr.2 = [] ∧ sr.1 ≤ 59 then some ⟨hr.1, mr.1, sr.1⟩ else none)
        | _ => none)
    | _ => none)

/-- The `for fmt in [...]` loop of src/app.py lines 22-27: the formats are
tried in the stated order and the first successful parse wins. -/
def tryTimeFormats (s : String) : Option TimeOfDay :=
  match parseIMp s with
  | some t => some t
  | none =>
    match parseHM s with
    | some t => some t
    | none => parseHMS s

/-- The date-coercion step of src/app.py lines 15-18: a `datetime` value
is used as-is; a string goes through `pd.to_datetime` (external library
behaviour, supplied as `toDT`); any other value makes `pd.to_datetime`
raise, which the surrounding `except` turns into `None`.  (`pyNone` never
reaches this step because of the `pd.isna` guard.) -/
def coerceDate (toDT : String → Option DateTime) : PyVal → Option DateTime
  | .pyDatetime dt => some dt
  | .pyStr s => toDT s
  | _ => none

/-- src/app.py lines 10-36.  Returns the combined timestamp or `none`;
every exception raised inside the `try` block is caught and mapped to
`None`.  Passing a `pyOther` time value reaches `datetime.combine`, which
raises `TypeError` on a non-`time` argument; the `except` maps it to
`None` as well. -/
def safe_parse_datetime (toDT : String → Option DateTime)
    (date_val time_val : PyVal) : Option DateTime :=
  if isNA date_val || isNA time_val then none
  else
    match coerceDate toDT date_val with
    | none => none
    | some date_dt =>
      match time_val with
      | .pyStr s =>
        match tryTimeFormats s with
        | none => none
        | some t => some ⟨date_dt.date, t⟩
      | .pyDatetime dt => some ⟨date_dt.date, dt.time⟩
      | .pyTime t => some ⟨date_dt.date, t⟩
      | .pyOther => none
      | .pyNone => none

lemma tryTimeFormats_3pm : tryTimeFormats "3:00 PM" = some ⟨15, 0, 0⟩ := by decide

lemma tryTimeFormats_1500 : tryTimeFormats "15:00" = some ⟨15, 0, 0⟩ := by decide

lemma tryTimeFormats_150000 : tryTimeFormats "15:00:00" = some ⟨15, 0, 0⟩ := by decide

lemma tryTimeFormats_midnight : tryTimeFormats "12:05 am" = some ⟨0, 5, 0⟩ := by decide

lemma tryTimeFormats_leap_second : tryTimeFormats "23:59:61" = none := by decide

lemma tryTimeFormats_short_minute : tryTimeFormats "3:0 PM" = some ⟨15, 0, 0⟩ := by decide

lemma tryTimeFormats_garbage : tryTimeFormats "zz" = none := by decide

/-! ### Instants as numbers

The `Start`/`End` columns hold absolute instants on which the app does
arithmetic (`Start + timedelta`, `Start - End`).  We map a `DateTime` to
rational seconds via the standard civil-calendar day number. -/

/-- Day number of a civil date (days since 0000-03-01, proleptic
Gregorian; the standard `days_from_civil` computation). -/
def dayNumber (y m d : Nat) : Nat :=
  let y' := if m ≤ 2 then y - 1 else y
  let era := y' / 400
  let yoe := y' % 400
  let mp := (m + 9) % 12
  let doy := (153 * mp + 2) / 5 + d - 1
  let doe := yoe * 365 + yoe / 4 - yoe / 100 + doy
  era * 146097 + doe

/-- Seconds since midnight. -/
def secOfDay (t : TimeOfDay) : Nat := t.hour * 3600 + t.minute * 60 + t.second

/-- A `DateTime` as rational seconds on the absolute time line. -/
def dtToSec (dt : DateTime) : ℚ :=
  ((dayNumber dt.date.year dt.date.month dt.date.day * 86400 + secOfDay dt.time : Nat) : ℚ)

/-! ### The schedule normalizer (`load_data`, src/app.py lines 38-52) -/

/-- A `DURATION` cell, distinguished the way `df["DURATION"].astype(float)`
treats it: a value that coerces to a float (numbers and numeric strings),
a NaN (empty cell — `astype(float)` keeps it NaN and the derived `End` is
`NaT`), or a value on which `astype(float)` raises `ValueError`. -/
inductive DurVal where
  | num (q : ℚ)
  | nan
  | bad
deriving DecidableEq, Repr

/-- Whether `astype(float)` raises on this cell. -/
def DurVal.isBad : DurVal → Bool
  | .bad => true
  | _ => false

/-- One input spreadsheet row with the columns `load_data` touches.  Team
cells are taken after `astype(str)` (string form of whatever was stored);
`load_data` then strips them. -/
structure RawRow where
  date : PyVal
  time : PyVal
  duration : DurVal
  homeTeam : String
  awayTeam : String
  location : String
deriving DecidableEq, Repr

/-- A normalized event: the surviving row with its derived `Start` (a
timestamp) and `End` (rational seconds, `none` for `NaT` when the duration
was NaN).  The original `DATE`/`TIME`/`DURATION` cells are retained, as in
the DataFrame. -/
structure Event where
  date : PyVal
  time : PyVal
  duration : DurVal
  homeTeam : String
  awayTeam : String
  location : String
  start : DateTime
  endSec : Option ℚ
deriving DecidableEq, Repr

/-- Python `str.strip()`: remove leading and trailing whitespace. -/
def pyStrip (s : String) : String :=
  String.mk (((s.toList.dropWhile Char.isWhitespace).reverse.dropWhile
    Char.isWhitespace).reverse)

/-- `End = Start + pd.to_timedelta(float(duration), unit="m")`:
`none` (`NaT`) when the duration cell was NaN. -/
def derivedEnd (st : DateTime) : DurVal → Option ℚ
  | .num q => some (dtToSec st + 60 * q)
  | _ => none

/-- src/app.py lines 38-52.  Strips the team columns, computes `Start`
with the safe parser, drops rows whose `Start` is null, then computes
`End = Start + to_timedelta(DURATION.astype(float), unit="m")` over the
surviving rows.  `astype(float)` raises `ValueError` as soon as a
surviving row's duration cell is non-coercible, and no handler catches
it, so the whole call fails (`Except.error`). -/
def load_data (toDT : String → Option DateTime) (rows : List RawRow) :
    Except Unit (List Event) :=
  let parsed := rows.filterMap (fun r =>
    (safe_parse_datetime toDT r.date r.time).map (fun st => (r, st)))
  if parsed.any (fun p => p.1.duration.isBad) then
    .error ()
  else
    .ok (parsed.map (fun p =>
      { date := p.1.date
        time := p.1.time
        duration := p.1.duration
        homeTeam := pyStrip p.1.homeTeam
        awayTeam := pyStrip p.1.awayTeam
        location := p.1.location
        start := p.2
        endSec := derivedEnd p.2 p.1.duration }))

/-! ### The conflict detector (src/app.py lines 202-218) -/

/-- The rows handed to the detection loop (`filtered.to_dict("records")`):
the stored `DATE` cell (a timestamp) and the derived `Start`/`End`
instants in rational seconds. -/
structure SchedRow where
  date : DateTime
  start : ℚ
  endT : ℚ
deriving DecidableEq, Repr

/-- The three conflict classifications of the detection loop. -/
inductive ConflictKind where
  | sameTime
  | overlapping
  | close
deriving DecidableEq, Repr

/-- One detected conflict: the pair of rows in scan order, the
classification, and the gap (seconds). -/
structure Conflict where
  game1 : SchedRow
  game2 : SchedRow
  kind : ConflictKind
  gap : ℚ
deriving DecidableEq, Repr

/-- The body of the inner loop for one pair (src/app.py lines 207-218):
skip unless `r1["DATE"] == r2["DATE"]`; `Same Time` with zero gap when
both `Start`s and both `End`s coincide; otherwise
`gap = r2["Start"] - r1["End"]`, recorded as `Overlapping` when negative
and `Close` otherwise, provided `gap <= timedelta(minutes=30)`. -/
def classifyPair (r1 r2 : SchedRow) : Option (ConflictKind × ℚ) :=
  if r1.date = r2.date then
    if r1.start = r2.start ∧ r1.endT = r2.endT then
      some (.sameTime, 0)
    else
      let gap := r2.start - r1.endT
      if gap ≤ 1800 then
        some (if gap < 0 then .overlapping else .close, gap)
      else
        none
  else
    none

/-- The inner loop `for j in range(i+1, len(rows))` with `rows[i] = r1`. -/
def detectFrom (r1 : SchedRow) : List SchedRow → List Conflict
  | [] => []
  | r2 :: rest =>
    (match classifyPair r1 r2 with
     | some tg => [⟨r1, r2, tg.1, tg.2⟩]
     | none => []) ++ detectFrom r1 rest

/-- The double loop of src/app.py lines 205-218: every pair `i < j`, in
iteration order. -/
def detect : List SchedRow → List Conflict
  | [] => []
  | r :: rest => detectFrom r rest ++ detect rest

/-! ### `strftime`-style formatting used by the exporters -/

/-- A number zero-padded to two characters (`%02d`-style field). -/
def pad2 (n : Nat) : String :=
  if n < 10 then "0" ++ Nat.repr n else Nat.repr n

/-- A year zero-padded to four characters (`%Y`). -/
def pad4 (n : Nat) : String :=
  if n < 10 then "000" ++ Nat.repr n
  else if n < 100 then "00" ++ Nat.repr n
  else if n < 1000 then "0" ++ Nat.repr n
  else Nat.repr n

/-- `strftime("%Y%m%dT%H%M%S")`: the local "floating" stamp with no
timezone suffix. -/
def fmtFloating (dt : DateTime) : String :=
  pad4 dt.date.year ++ pad2 dt.date.month ++ pad2 dt.date.day ++ "T" ++
    pad2 dt.time.hour ++ pad2 dt.time.minute ++ pad2 dt.time.second

/-- `strftime("%Y%m%dT%H%M%SZ")`: the UTC-suffixed stamp used for
`DTSTAMP`. -/
def fmtUtcStamp (dt : DateTime) : String := fmtFloating dt ++ "Z"

/-- English month abbreviations for `%b`. -/
def monthAbbrev (m : Nat) : String :=
  (["Jan", "Feb", "Mar", "Apr", "May", "Jun", "Jul", "Aug", "Sep", "Oct",
    "Nov", "Dec"].get? (m - 1)).getD ""

/-- `strftime("%d %b %Y")`, used in the ICS description. -/
def fmtDbY (dt : DateTime) : String :=
  pad2 dt.date.day ++ " " ++ monthAbbrev dt.date.month ++ " " ++ pad4 dt.date.year

/-- `strftime("%m/%d/%Y")`. -/
def fmtMDY (dt : DateTime) : String :=
  pad2 dt.date.month ++ "/" ++ pad2 dt.date.day ++ "/" ++ pad4 dt.date.year

/-- `strftime("%I:%M %p")` (12-hour clock, zero-padded hour). -/
def fmtIMp (dt : DateTime) : String :=
  let h12 := if dt.time.hour % 12 = 0 then 12 else dt.time.hour % 12
  pad2 h12 ++ ":" ++ pad2 dt.time.minute ++ " " ++
    (if dt.time.hour < 12 then "AM" else "PM")

/-- Python `str.lstrip("0")`: drop every leading `'0'`. -/
def lstrip0 (s : String) : String := String.mk (s.toList.dropWhile (· = '0'))

/-- Python `str()` of a cell value, as interpolated into the ICS
description (`datetime.time` prints as `HH:MM:SS`, `datetime` as
`YYYY-MM-DD HH:MM:SS`; what `str` prints for an arbitrary foreign object
is not determined by the model). -/
def pyToStr : PyVal → String
  | .pyStr s => s
  | .pyTime t => pad2 t.hour ++ ":" ++ pad2 t.minute ++ ":" ++ pad2 t.second
  | .pyDatetime dt =>
    pad4 dt.date.year ++ "-" ++ pad2 dt.date.month ++ "-" ++ pad2 dt.date.day ++
      " " ++ pad2 dt.time.hour ++ ":" ++ pad2 dt.time.minute ++ ":" ++
      pad2 dt.time.second
  | .pyNone => "nan"
  | .pyOther => "<object>"

/-- Python `str()` of the original `DURATION` cell for the ICS
description (printed as an exact rational; a `bad` cell never reaches an
exporter because `load_data` already raised). -/
def durValStr : DurVal → String
  | .num q => if q.den = 1 then Int.repr q.num else Int.repr q.num ++ "/" ++ Nat.repr q.den
  | .nan => "nan"
  | .bad => ""

/-! ### The calendar exporter (`generate_ics`, src/app.py lines 54-81) -/

/-- A row of the filtered DataFrame as `generate_ics` reads it.  `start`
and `endT` are the `Start`/`End` timestamps (already whole-second here;
`strftime` discards sub-second parts). -/
structure IcsRow where
  date : DateTime
  time : PyVal
  duration : DurVal
  homeTeam : String
  awayTeam : String
  location : String
  start : DateTime
  endT : DateTime
deriving DecidableEq, Repr

/-- The UID built for DataFrame index label `i`:
`f"event-{i}@soccerschedule.com"`. -/
def uidOf (i : Nat) : String := "event-" ++ Nat.repr i ++ "@soccerschedule.com"

/-- One `BEGIN:VEVENT` … `END:VEVENT` block (the string appended per
iteration of the loop in src/app.py lines 61-79), for the row with
DataFrame index label `i`. -/
def eventBlock (dtstamp : String) (p : Nat × IcsRow) : String :=
  "BEGIN:VEVENT\n" ++
    ("UID:" ++ uidOf p.1 ++ "\n") ++
    ("DTSTAMP:" ++ dtstamp ++ "\n") ++
    ("DTSTART:" ++ fmtFloating p.2.start ++ "\n") ++
    ("DTEND:" ++ fmtFloating p.2.endT ++ "\n") ++
    ("SUMMARY:" ++ p.2.homeTeam ++ " vs " ++ p.2.awayTeam ++ "\n") ++
    ("LOCATION:" ++ p.2.location ++ "\n") ++
    ("DESCRIPTION:" ++ "Game scheduled on " ++ fmtDbY p.2.date ++ " at " ++
      pyToStr p.2.time ++ ", duration: " ++ durValStr p.2.duration ++
      " minutes." ++ "\n") ++
    "END:VEVENT\n"

/-- The fixed calendar header. -/
def icsHeader : String := "BEGIN:VCALENDAR\nVERSION:2.0\nPRODID:-//Soccer Schedule//EN\n"

/-- src/app.py lines 54-81.  `dtstamp` is formatted once from
`datetime.utcnow()` (modelled as the `now` argument) before the loop; the
loop appends one block per row of `filtered_df.iterrows()` (each row
carrying its DataFrame index label), then the footer. -/
def generate_ics (now : DateTime) (rows : List (Nat × IcsRow)) : String :=
  icsHeader ++ String.join (rows.map (eventBlock (fmtUtcStamp now))) ++
    "END:VCALENDAR\n"

/-! ### The roster CSV exporter (`generate_teamsnap_csv`,
src/app.py lines 83-169) -/

/-- A row of a team's schedule DataFrame as `generate_teamsnap_csv` reads
it: the `Start` timestamp, the original `DURATION` as a number (the
`int(...)` call determines how non-numbers would fail; the app only
reaches this point with numeric durations), and the team/location
columns. -/
structure TsRow where
  start : DateTime
  duration : ℚ
  homeTeam : String
  awayTeam : String
  location : String
deriving DecidableEq, Repr

/-- Python `int()` on a float/number: truncation toward zero. -/
def pyTrunc (q : ℚ) : Int := if 0 ≤ q then ⌊q⌋ else ⌈q⌉

/-- `f"{hh}:{mm:02d}"` with `hh = d // 60` and `mm = d % 60` (Python
floor division and floor modulus). -/
def durFmt (d : Int) : String :=
  let mm := Int.fmod d 60
  Int.repr (Int.fdiv d 60) ++ ":" ++
    (if mm < 10 then "0" ++ Int.repr mm else Int.repr mm)

/-- The 17 header names of the TeamSnap CSV. -/
def teamsnapHeader : List String :=
  ["Date", "Time", "Duration (HH:MM)", "Arrival Time (Minutes)", "Name",
   "Opponent Name", "Opponent Contact Name", "Opponent Contact Phone Number",
   "Opponent Contact E-mail Address", "Location Name", "Location Address",
   "Location Details", "Location URL", "Home or Away", "Uniform",
   "Extra Label", "Notes"]

/-- The 17 fields written for one event row (src/app.py lines 115-168). -/
def teamsnapFields (row : TsRow) (our_team : String) : List String :=
  let date_str := fmtMDY row.start
  let time_str := lstrip0 (fmtIMp row.start)
  let dur_minutes := pyTrunc row.duration
  let duration_str := durFmt dur_minutes
  let home_away_flag := if row.homeTeam = our_team then "h" else "a"
  let opponent_name := if row.homeTeam = our_team then row.awayTeam else row.homeTeam
  let uniform_str := if home_away_flag = "h" then "Home uniform" else "Away uniform"
  [date_str, time_str, duration_str, "30", "Game", opponent_name,
   "", "", "", row.location, "", "", "", home_away_flag, uniform_str, "", ""]

/-- `csv.writer` field quoting (QUOTE_MINIMAL): quote a field containing
a delimiter, quote char, or line break, doubling embedded quotes. -/
def csvQuote (f : String) : String :=
  if f.toList.any (fun c => c = ',' ∨ c = '"' ∨ c = '\n' ∨ c = '\r') then
    "\"" ++ String.mk (f.toList.flatMap (fun c => if c = '"' then ['"', '"'] else [c])) ++ "\""
  else f

/-- One `writer.writerow` line (default dialect: comma-separated,
`\r\n`-terminated). -/
def csvLine (fields : List String) : String :=
  String.intercalate "," (fields.map csvQuote) ++ "\r\n"

/-- src/app.py lines 83-169: the header row, then one row per event. -/
def generate_teamsnap_csv (rows : List TsRow) (our_team : String) : String :=
  csvLine teamsnapHeader ++
    String.join (rows.map (fun r => csvLine (teamsnapFields r our_team)))

/-! ### Spec-side definitions

These follow the specification's words and are compared against the
definitions above, which were translated from the source. -/

/-- Spec side: all ordered pairs `(i, j)` with `i < j`, enumerated
primarily by `i` and secondarily by `j` — the iteration order the spec
prescribes for conflict records. -/
def specOrderedPairs {α : Type} : List α → List (α × α)
  | [] => []
  | x :: xs => xs.map (fun y => (x, y)) ++ specOrderedPairs xs

/-- Spec side (§4.3 steps 2-3): `SameTime` with gap 0 on equal intervals;
otherwise `gap = second.start - first.end`, `Overlapping` when `gap < 0`,
`Close` when `0 ≤ gap ≤ 30` minutes, and no record when the gap exceeds
30 minutes.  (The same-date gate of step 1 is the subject of claim C4 and
is supplied as a hypothesis when this is compared with `classifyPair`.) -/
def specGapClassify (r1 r2 : SchedRow) : Option (ConflictKind × ℚ) :=
  if r1.start = r2.start ∧ r1.endT = r2.endT then
    some (.sameTime, 0)
  else
    let gap := r2.start - r1.endT
    if gap < 0 then some (.overlapping, gap)
    else if 0 ≤ gap ∧ gap ≤ 1800 then some (.close, gap)
    else none

/-- The conflict record built from one scanned pair, when the pair
classifies. -/
def mkConflict (p : SchedRow × SchedRow) : Option Conflict :=
  (classifyPair p.1 p.2).map (fun tg => ⟨p.1, p.2, tg.1, tg.2⟩)

/-! ### Helper lemmas -/

lemma detectFrom_eq (r : SchedRow) (xs : List SchedRow) :
    detectFrom r xs = (xs.map (fun y => (r, y))).filterMap mkConflict := by
  induction xs with
  | nil => rfl
  | cons y ys ih =>
    cases h : classifyPair r y <;>
      simp [detectFrom, ih, mkConflict, h, List.filterMap_cons]

lemma detect_eq (rows : List SchedRow) :
    detect rows = (specOrderedPairs rows).filterMap mkConflict := by
  induction rows with
  | nil => rfl
  | cons r rest ih =>
    simp [detect, specOrderedPairs, List.filterMap_append, detectFrom_eq, ih]

lemma classifyPair_date {r1 r2 : SchedRow} {tg : ConflictKind × ℚ}
    (h : classifyPair r1 r2 = some tg) : r1.date = r2.date := by
  by_contra hne
  unfold classifyPair at h
  rw [if_neg hne] at h
  exact Option.noConfusion h

@[simp] lemma isNA_pyNone : isNA .pyNone = true := rfl

@[simp] lemma isNA_pyStr (s : String) : isNA (.pyStr s) = false := rfl

@[simp] lemma isNA_pyDatetime (dt : DateTime) : isNA (.pyDatetime dt) = false := rfl

@[simp] lemma isNA_pyTime (t : TimeOfDay) : isNA (.pyTime t) = false := rfl

@[simp] lemma isNA_pyOther : isNA .pyOther = false := rfl

lemma safe_parse_na (toDT : String → Option DateTime) (dv tv : PyVal)
    (h : isNA dv = true ∨ isNA tv = true) :
    safe_parse_datetime toDT dv tv = none := by
  rcases h with h | h <;> simp [safe_parse_datetime, h]

lemma safe_parse_none_date (toDT : String → Option DateTime) (dv tv : PyVal)
    (hna : isNA dv = false) (hcd : coerceDate toDT dv = none) :
    safe_parse_datetime toDT dv tv = none := by
  cases tv <;> simp [safe_parse_datetime, hna, hcd]

lemma safe_parse_some_date (toDT : String → Option DateTime) (dv tv : PyVal)
    (ddt : DateTime) (hna : isNA dv = false) (hcd : coerceDate toDT dv = some ddt) :
    safe_parse_datetime toDT dv tv =
      match tv with
      | .pyStr s =>
        match tryTimeFormats s with
        | none => none
        | some t => some ⟨ddt.date, t⟩
      | .pyDatetime dt => some ⟨ddt.date, dt.time⟩
      | .pyTime t => some ⟨ddt.date, t⟩
      | .pyOther => none
      | .pyNone => none := by
  cases tv <;> simp [safe_parse_datetime, hna, hcd]

lemma load_data_ok_mem (toDT : String → Option DateTime) (rows : List RawRow)
    (evs : List Event) (h : load_data toDT rows = .ok evs) :
    ∀ e ∈ evs,
      safe_parse_datetime toDT e.date e.time = some e.start ∧
      e.endSec = derivedEnd e.start e.duration := by
  intro e he
  unfold load_data at h
  by_cases hb : (rows.filterMap (fun r =>
      (safe_parse_datetime toDT r.date r.time).map (fun st => (r, st)))).any
      (fun p => p.1.duration.isBad)
  · rw [if_pos hb] at h
    exact Except.noConfusion h
  · rw [if_neg hb] at h
    have hevs := (Except.ok.injEq _ _).mp h.symm
    rw [hevs] at he
    obtain ⟨p, hp, rfl⟩ := List.mem_map.1 he
    obtain ⟨r, _, hr⟩ := List.mem_filterMap.1 hp
    obtain ⟨st, hst, hpr⟩ := Option.map_eq_some'.1 hr
    rw [← hpr]
    exact ⟨hst, rfl⟩

lemma load_data_error_iff (toDT : String → Option DateTime) (rows : List RawRow) :
    load_data toDT rows = .error () ↔
      ∃ r ∈ rows, (safe_parse_datetime toDT r.date r.time).isSome = true ∧
        r.duration.isBad = true := by
  unfold load_data
  by_cases hb : (rows.filterMap (fun r =>
      (safe_parse_datetime toDT r.date r.time).map (fun st => (r, st)))).any
      (fun p => p.1.duration.isBad)
  · rw [if_pos hb]
    simp only [true_iff]
    obtain ⟨p, hp, hbad⟩ := List.any_eq_true.1 hb
    obtain ⟨r, hr, hmap⟩ := List.mem_filterMap.1 hp
    obtain ⟨st, hst, hpr⟩ := Option.map_eq_some'.1 hmap
    refine ⟨r, hr, ?_, ?_⟩
    · rw [hst]; rfl
    · rw [← hpr] at hbad; exact hbad
  · rw [if_neg hb]
    constructor
    · intro h; exact Except.noConfusion h
    · rintro ⟨r, hr, hsome, hbad⟩
      exfalso
      apply hb
      obtain ⟨st, hst⟩ := Option.isSome_iff_exists.1 hsome
      refine List.any_eq_true.2 ⟨(r, st), ?_, hbad⟩
      exact List.mem_filterMap.2 ⟨r, hr, by rw [hst]; rfl⟩

/-! #### Injectivity of `Nat.repr` (for UID distinctness) -/

/-- The decimal digit list of a natural number (most significant first),
by structural division. -/
def decDigits (n : Nat) : List Char :=
  if _h : n < 10 then [Nat.digitChar n]
  else decDigits (n / 10) ++ [Nat.digitChar (n % 10)]
termination_by n
decreasing_by exact Nat.div_lt_self (by omega) (by omega)

lemma toDigitsCore_eq_decDigits :
    ∀ (f n : Nat) (ds : List Char), n < 10 ^ f → 0 < f →
      Nat.toDigitsCore 10 f n ds = decDigits n ++ ds := by
  intro f
  induction f with
  | zero => intro n ds _ h0; exact absurd h0 (lt_irrefl 0)
  | succ f ih =>
    intro n ds h _
    by_cases h10 : n / 10 = 0
    · have hn : n < 10 := by omega
      rw [Nat.toDigitsCore, decDigits]
      simp [h10, hn, Nat.mod_eq_of_lt hn]
    · have hn : ¬ n < 10 := fun hlt => h10 (Nat.div_eq_of_lt hlt)
      have hf : 0 < f := by
        rcases Nat.eq_zero_or_pos f with h0 | h0
        · subst h0; simp at h; omega
        · exact h0
      have hdiv : n / 10 < 10 ^ f := by
        rw [Nat.div_lt_iff_lt_mul (by omega)]
        calc n < 10 ^ (f + 1) := h
        _ = 10 ^ f * 10 := by rw [pow_succ]
      rw [Nat.toDigitsCore]
      simp only [h10, if_false]
      rw [ih (n / 10) (Nat.digitChar (n % 10) :: ds) hdiv hf]
      have heq : decDigits n = decDigits (n / 10) ++ [Nat.digitChar (n % 10)] := by
        rw [decDigits]; simp [hn]
      rw [heq, List.append_assoc]
      rfl

lemma repr_eq_decDigits (n : Nat) : Nat.repr n = (decDigits n).asString := by
  have hpow : n < 10 ^ (n + 1) :=
    lt_of_lt_of_le (Nat.lt_pow_self (by omega) n)
      (Nat.pow_le_pow_right (by omega) (by omega))
  unfold Nat.repr Nat.toDigits
  rw [toDigitsCore_eq_decDigits (n + 1) n [] hpow (by omega)]
  simp

/-- Decimal valuation of a digit string. -/
def decVal (l : List Char) : Nat := l.foldl (fun a c => 10 * a + dval c) 0

lemma decVal_decDigits (n : Nat) : decVal (decDigits n) = n := by
  induction n using Nat.strong_induction_on with
  | _ n ih =>
    by_cases h : n < 10
    · rw [decDigits]
      simp only [h, dif_pos]
      have : dval (Nat.digitChar n) = n := by
        interval_cases n <;> decide
      simpa [decVal]
    · rw [decDigits]
      simp only [h, dif_neg, not_false_iff]
      have hlt : n / 10 < n := Nat.div_lt_self (by omega) (by omega)
      have hdig : dval (Nat.digitChar (n % 10)) = n % 10 := by
        have : n % 10 < 10 := Nat.mod_lt _ (by omega)
        interval_cases h : n % 10 <;> decide
      unfold decVal
      rw [List.foldl_append]
      have := ih (n / 10) hlt
      unfold decVal at this
      rw [this]
      simp only [List.foldl_cons, List.foldl_nil, hdig]
      omega

lemma nat_repr_injective : Function.Injective Nat.repr := by
  intro a b h
  rw [repr_eq_decDigits, repr_eq_decDigits] at h
  have hd : decDigits a = decDigits b := congrArg String.data h
  calc a = decVal (decDigits a) := (decVal_decDigits a).symm
  _ = decVal (decDigits b) := by rw [hd]
  _ = b := decVal_decDigits b

lemma uidOf_injective : Function.Injective uidOf := by
  intro a b h
  have hdata : "event-".data ++ ((Nat.repr a).data ++ "@soccerschedule.com".data)
      = "event-".data ++ ((Nat.repr b).data ++ "@soccerschedule.com".data) := by
    have := congrArg String.data h
    simpa [uidOf, List.append_assoc] using this
  have h1 := List.append_cancel_left hdata
  have h2 := List.append_cancel_right h1
  exact nat_repr_injective (String.ext h2)

/-! ### Concrete fixtures for witnesses and counterexamples -/

/-- A fixed timestamp: 2024-05-01 00:00:00. -/
def dt2024 : DateTime := ⟨⟨2024, 5, 1⟩, ⟨0, 0, 0⟩⟩

/-- A scanned row: stored date 2024-05-01 00:00, start 10:00, end 11:00
(instants as seconds of that day). -/
def rowA : SchedRow := ⟨⟨⟨2024, 5, 1⟩, ⟨0, 0, 0⟩⟩, 36000, 39600⟩

/-- A scanned row: stored date 2024-05-01 00:00, start 10:50, end 11:35. -/
def rowB : SchedRow := ⟨⟨⟨2024, 5, 1⟩, ⟨0, 0, 0⟩⟩, 39000, 41700⟩

/-- Stored date value 2024-05-01 00:00, interval 00:00-01:00. -/
def cexRow1 : SchedRow := ⟨⟨⟨2024, 5, 1⟩, ⟨0, 0, 0⟩⟩, 0, 3600⟩

/-- Stored date value 2024-05-01 12:00 — the same calendar date as
`cexRow1` but a different full timestamp — with the identical interval. -/
def cexRow2 : SchedRow := ⟨⟨⟨2024, 5, 1⟩, ⟨12, 0, 0⟩⟩, 0, 3600⟩

/-! ### Claim theorems -/

/-- C1: for every pair `i < j` of same-date events compared by `detect`,
equal intervals classify as `SameTime` with gap 0; otherwise
`gap = events[j].start - events[i].end` classifies `Overlapping` when
negative, `Close` when `0 ≤ gap ≤ 30` minutes, and produces no record
when larger; and the records appear in `(i, j)` iteration order (the
output is exactly the classification mapped over the ordered pair list). -/
theorem conflict_pair_classification :
    (∀ rows : List SchedRow,
      detect rows = (specOrderedPairs rows).filterMap mkConflict) ∧
    (∀ r1 r2 : SchedRow, r1.date = r2.date →
      classifyPair r1 r2 = specGapClassify r1 r2) := by
  constructor
  · exact detect_eq
  · intro r1 r2 hd
    unfold classifyPair specGapClassify
    rw [if_pos hd]
    by_cases heq : r1.start = r2.start ∧ r1.endT = r2.endT
    · rw [if_pos heq, if_pos heq]
    · rw [if_neg heq, if_neg heq]
      by_cases h1 : r2.start - r1.endT < 0
      · have h2 : r2.start - r1.endT ≤ 1800 := by linarith
        rw [if_pos h2, if_pos h1, if_pos h1]
      · by_cases h2 : r2.start - r1.endT ≤ 1800
        · have h0 : 0 ≤ r2.start - r1.endT := le_of_not_lt h1
          rw [if_pos h2, if_neg h1, if_neg h1, if_pos ⟨h0, h2⟩]
        · rw [if_neg h2, if_neg h1, if_neg (fun hc => h2 hc.2)]

/-- C1 witness: the classification agreement applied to a concrete
same-date pair (10:00-11:00 against 10:50-11:35, an overlap). -/
theorem conflict_pair_classification_witness :
    classifyPair rowA rowB = specGapClassify rowA rowB :=
  conflict_pair_classification.2 rowA rowB rfl

/-- C4 counterexample: two rows whose stored date values denote the same
calendar date but differ in time-of-day, with identical intervals.  The
claim requires the pair to be compared (and here classified `SameTime`),
but `detect` produces no record because `r1["DATE"] == r2["DATE"]`
compares the full stored timestamps, which differ. -/
theorem date_gate_counterexample :
    cexRow1.date.date = cexRow2.date.date ∧
    cexRow1.date ≠ cexRow2.date ∧
    cexRow1.start = cexRow2.start ∧ cexRow1.endT = cexRow2.endT ∧
    detect [cexRow1, cexRow2] = [] := by
  refine ⟨rfl, by decide, rfl, rfl, ?_⟩
  decide

/-- C4 amended: a pair `i < j` is skipped unless the two events' stored
`DATE` values are equal as full values (the comparison is full-timestamp
equality of the original date field, not calendar-date equality); in
particular two events whose stored date values denote the same calendar
date but differ in time-of-day are skipped. -/
theorem date_gate_full_value :
    (∀ rows : List SchedRow, ∀ c ∈ detect rows, c.game1.date = c.game2.date) ∧
    (∀ r1 r2 : SchedRow, r1.date ≠ r2.date → classifyPair r1 r2 = none) := by
  constructor
  · intro rows c hc
    rw [detect_eq] at hc
    obtain ⟨p, _, hmk⟩ := List.mem_filterMap.1 hc
    unfold mkConflict at hmk
    obtain ⟨tg, htg, hcon⟩ := Option.map_eq_some'.1 hmk
    rw [← hcon]
    exact classifyPair_date htg
  · intro r1 r2 h
    unfold classifyPair
    rw [if_neg h]

/-- C4 amended witness: the full-value gate applied to the concrete
same-calendar-date pair, and the date-equality invariant applied to a
concrete produced record. -/
theorem date_gate_full_value_witness :
    classifyPair cexRow1 cexRow2 = none ∧
    (Conflict.mk rowA rowB .overlapping (-600)).game1.date =
      (Conflict.mk rowA rowB .overlapping (-600)).game2.date := by
  refine ⟨date_gate_full_value.2 cexRow1 cexRow2 (by decide), ?_⟩
  apply date_gate_full_value.1 [rowA, rowB]
  have h : detect [rowA, rowB] = [⟨rowA, rowB, .overlapping, -600⟩] := by
    norm_num [detect, detectFrom, classifyPair, rowA, rowB]
  rw [h]
  exact List.mem_singleton.2 rfl

/-- C2: the time parser is total — it returns a timestamp or `none` and
(modelling every caught exception as `none`) never propagates an error —
and it returns `none` when either input is missing, when a string time
value matches none of the three accepted formats, when date coercion
fails, and when the final combination step fails (a non-`time` fallback
value makes `datetime.combine` raise, which is caught). -/
theorem parse_total_null_cases :
    ∀ (toDT : String → Option DateTime) (dv tv : PyVal),
      (isNA dv = true ∨ isNA tv = true → safe_parse_datetime toDT dv tv = none) ∧
      (∀ s, tv = .pyStr s → tryTimeFormats s = none →
        safe_parse_datetime toDT dv tv = none) ∧
      (coerceDate toDT dv = none → safe_parse_datetime toDT dv tv = none) ∧
      (tv = .pyOther → safe_parse_datetime toDT dv tv = none) := by
  intro toDT dv tv
  refine ⟨safe_parse_na toDT dv tv, ?_, ?_, ?_⟩
  · rintro s rfl hfmt
    cases hb : isNA dv with
    | true => exact safe_parse_na toDT dv _ (Or.inl hb)
    | false =>
      cases hcd : coerceDate toDT dv with
      | none => exact safe_parse_none_date toDT dv _ hb hcd
      | some ddt =>
        rw [safe_parse_some_date toDT dv _ ddt hb hcd]
        simp [hfmt]
  · intro hcd
    cases hb : isNA dv with
    | true => exact safe_parse_na toDT dv tv (Or.inl hb)
    | false => exact safe_parse_none_date toDT dv tv hb hcd
  · rintro rfl
    cases hb : isNA dv with
    | true => exact safe_parse_na toDT dv _ (Or.inl hb)
    | false =>
      cases hcd : coerceDate toDT dv with
      | none => exact safe_parse_none_date toDT dv _ hb hcd
      | some ddt => rw [safe_parse_some_date toDT dv _ ddt hb hcd]

/-- C2 witness: the four null cases at concrete inputs — a missing date,
an unmatchable time string, a date whose coercion fails, and a time value
of an unexpected type. -/
theorem parse_total_null_cases_witness :
    safe_parse_datetime (fun _ => none) .pyNone (.pyStr "15:00") = none ∧
    safe_parse_datetime (fun _ => none) (.pyDatetime dt2024) (.pyStr "zz") = none ∧
    safe_parse_datetime (fun _ => none) (.pyStr "not a date") (.pyStr "15:00") = none ∧
    safe_parse_datetime (fun _ => none) (.pyDatetime dt2024) .pyOther = none :=
  ⟨(parse_total_null_cases _ _ _).1 (Or.inl rfl),
   (parse_total_null_cases _ _ _).2.1 "zz" rfl (by decide),
   (parse_total_null_cases _ _ _).2.2.1 rfl,
   (parse_total_null_cases _ _ _).2.2.2 rfl⟩

/-- C6: for every valid date value, the strings "3:00 PM", "15:00" and
"15:00:00" all parse to the same timestamp whose time-of-day is 15:00;
and string time values are tried against the three formats in the stated
order with the first successful match winning (a string accepted by the
first format is never reinterpreted by a later one). -/
theorem parse_format_equivalence :
    ∀ (toDT : String → Option DateTime) (dv : PyVal) (ddt : DateTime),
      isNA dv = false → coerceDate toDT dv = some ddt →
      (safe_parse_datetime toDT dv (.pyStr "3:00 PM") = some ⟨ddt.date, ⟨15, 0, 0⟩⟩ ∧
       safe_parse_datetime toDT dv (.pyStr "15:00") = some ⟨ddt.date, ⟨15, 0, 0⟩⟩ ∧
       safe_parse_datetime toDT dv (.pyStr "15:00:00") = some ⟨ddt.date, ⟨15, 0, 0⟩⟩) ∧
      (∀ s t, parseIMp s = some t → tryTimeFormats s = some t) := by
  intro toDT dv ddt hna hcd
  constructor
  · have h1 : tryTimeFormats "3:00 PM" = some ⟨15, 0, 0⟩ := by decide
    have h2 : tryTimeFormats "15:00" = some ⟨15, 0, 0⟩ := by decide
    have h3 : tryTimeFormats "15:00:00" = some ⟨15, 0, 0⟩ := by decide
    refine ⟨?_, ?_, ?_⟩ <;> rw [safe_parse_some_date toDT dv _ ddt hna hcd]
    · simp only [h1]
    · simp only [h2]
    · simp only [h3]
  · intro s t h
    unfold tryTimeFormats
    rw [h]

/-- C6 witness: the equivalence applied at a concrete valid date value. -/
theorem parse_format_equivalence_witness :
    safe_parse_datetime (fun _ => none) (.pyDatetime dt2024) (.pyStr "3:00 PM")
        = some ⟨dt2024.date, ⟨15, 0, 0⟩⟩ ∧
    safe_parse_datetime (fun _ => none) (.pyDatetime dt2024) (.pyStr "15:00")
        = some ⟨dt2024.date, ⟨15, 0, 0⟩⟩ ∧
    safe_parse_datetime (fun _ => none) (.pyDatetime dt2024) (.pyStr "15:00:00")
        = some ⟨dt2024.date, ⟨15, 0, 0⟩⟩ :=
  (parse_format_equivalence (fun _ => none) (.pyDatetime dt2024) dt2024 rfl rfl).1

/-- A row with a parseable start and a duration cell on which
`astype(float)` raises. -/
def badDurRow : RawRow :=
  ⟨.pyDatetime dt2024, .pyStr "15:00", .bad, "Red", "Blue", "Field 1"⟩

/-- A fully well-formed row (3:00 PM start, 90-minute duration, team name
with stray whitespace). -/
def goodRow : RawRow :=
  ⟨.pyDatetime dt2024, .pyStr "3:00 PM", .num 90, " Red ", "Blue", "Field 1"⟩

/-- The event `load_data` produces from `goodRow`. -/
def goodEvent : Event :=
  ⟨.pyDatetime dt2024, .pyStr "3:00 PM", .num 90, "Red", "Blue", "Field 1",
   ⟨dt2024.date, ⟨15, 0, 0⟩⟩, some (dtToSec ⟨dt2024.date, ⟨15, 0, 0⟩⟩ + 60 * 90)⟩

lemma load_data_goodRow :
    load_data (fun _ => none) [goodRow] = .ok [goodEvent] := rfl

/-- C3 counterexample: a single row whose start parses but whose
duration cell cannot be coerced to a number.  The claim requires
`normalize` to drop the row and return the remaining valid events
(here `.ok []`); instead `astype(float)` raises and the whole call
fails. -/
theorem duration_drop_counterexample :
    (safe_parse_datetime (fun _ => none) badDurRow.date badDurRow.time).isSome = true ∧
    badDurRow.duration.isBad = true ∧
    load_data (fun _ => none) [badDurRow] = .error () := by
  refine ⟨by decide, rfl, ?_⟩
  unfold load_data
  have hc : (([badDurRow] : List RawRow).filterMap (fun r =>
      (safe_parse_datetime (fun _ => none) r.date r.time).map (fun st => (r, st)))).any
      (fun p => p.1.duration.isBad) = true := by decide
  simp only [hc, if_true]

/-- C3 amended: a non-coercible `durationMinutes` is not dropped like an
unparseable start; it makes `normalize` fail as a whole.  Precisely,
`load_data` fails exactly when some row both survives the start-parse
filter and carries a non-coercible duration cell (a bad duration on a row
already dropped for its start has no effect). -/
theorem duration_error_semantics :
    ∀ (toDT : String → Option DateTime) (rows : List RawRow),
      load_data toDT rows = .error () ↔
        ∃ r ∈ rows, (safe_parse_datetime toDT r.date r.time).isSome = true ∧
          r.duration.isBad = true :=
  load_data_error_iff

/-- C5: every event produced by `load_data` has `end ≥ start` whenever
its (numeric) duration is nonnegative, and exists only because its start
was successfully derived by the time parser — its retained date/time
cells re-parse to exactly its stored start, so no partial event can
appear. -/
theorem normalize_event_invariants :
    ∀ (toDT : String → Option DateTime) (rows : List RawRow) (evs : List Event),
      load_data toDT rows = .ok evs → ∀ e ∈ evs,
        safe_parse_datetime toDT e.date e.time = some e.start ∧
        (∀ q, e.duration = .num q → e.endSec = some (dtToSec e.start + 60 * q)) ∧
        (∀ q, e.duration = .num q → 0 ≤ q →
          ∃ es, e.endSec = some es ∧ dtToSec e.start ≤ es) := by
  intro toDT rows evs h e he
  obtain ⟨hparse, hend⟩ := load_data_ok_mem toDT rows evs h e he
  refine ⟨hparse, ?_, ?_⟩
  · intro q hq
    rw [hend, hq]
    rfl
  · intro q hq hq0
    refine ⟨dtToSec e.start + 60 * q, ?_, ?_⟩
    · rw [hend, hq]
      rfl
    · have h60 : (0 : ℚ) ≤ 60 * q := by positivity
      linarith

/-- C5 witness: the invariants applied to the event produced from a
concrete valid row with a 90-minute duration. -/
theorem normalize_event_invariants_witness :
    safe_parse_datetime (fun _ => none) goodEvent.date goodEvent.time
        = some goodEvent.start ∧
    ∃ es, goodEvent.endSec = some es ∧ dtToSec goodEvent.start ≤ es := by
  obtain ⟨h1, _, h3⟩ := normalize_event_invariants (fun _ => none) [goodRow]
    [goodEvent] load_data_goodRow goodEvent (List.mem_singleton.2 rfl)
  exact ⟨h1, h3 90 rfl (by norm_num)⟩

/-- C7: in every emitted roster CSV row, when the event's home team
equals the perspective team the home/away flag is "h", the opponent is
the away team, and the uniform label is "Home uniform"; in every other
case (including when the perspective team is the away team) the flag is
"a", the opponent is the home team, and the label is "Away uniform". -/
theorem roster_home_away_fields :
    ∀ (row : TsRow) (team : String),
      (row.homeTeam = team →
        (teamsnapFields row team).get? 13 = some "h" ∧
        (teamsnapFields row team).get? 5 = some row.awayTeam ∧
        (teamsnapFields row team).get? 14 = some "Home uniform") ∧
      (row.homeTeam ≠ team →
        (teamsnapFields row team).get? 13 = some "a" ∧
        (teamsnapFields row team).get? 5 = some row.homeTeam ∧
        (teamsnapFields row team).get? 14 = some "Away uniform") := by
  intro row team
  constructor <;> intro h
  · simp [teamsnapFields, h]
  · simp [teamsnapFields, h]

/-- A concrete schedule row for the roster exporter. -/
def tsRowEx : TsRow := ⟨⟨⟨2024, 5, 1⟩, ⟨15, 0, 0⟩⟩, 90, "Red", "Blue", "Field 1"⟩

/-- C7 witness: the two branches at concrete perspective teams ("Red" is
the home team; "Blue" is the away team and gets the away flag). -/
theorem roster_home_away_fields_witness :
    (teamsnapFields tsRowEx "Red").get? 13 = some "h" ∧
    (teamsnapFields tsRowEx "Blue").get? 13 = some "a" ∧
    (teamsnapFields tsRowEx "Blue").get? 14 = some "Away uniform" := by
  refine ⟨((roster_home_away_fields tsRowEx "Red").1 rfl).1, ?_, ?_⟩
  · exact ((roster_home_away_fields tsRowEx "Blue").2 (by decide)).1
  · exact ((roster_home_away_fields tsRowEx "Blue").2 (by decide)).2.2

/-- A schedule row whose duration is the fractional 90.9 minutes. -/
def tsRow909 : TsRow := ⟨⟨⟨2024, 5, 1⟩, ⟨15, 0, 0⟩⟩, 909 / 10, "Red", "Blue", "Field 1"⟩

/-- C10: the roster exporter truncates the duration to an integer with
`int(...)` before formatting it as `(d // 60):(d % 60)` (two-digit
minutes), so the fractional duration 90.9 is exported as "1:30" — while
the normalizer derives the event's end from the full duration value
(`end = start + 60·q` seconds for the untruncated `q`). -/
theorem roster_duration_truncation :
    (∀ (row : TsRow) (team : String),
      (teamsnapFields row team).get? 2 = some (durFmt (pyTrunc row.duration))) ∧
    (∀ (row : TsRow) (team : String), row.duration = 909 / 10 →
      (teamsnapFields row team).get? 2 = some "1:30") ∧
    (∀ (toDT : String → Option DateTime) (rows : List RawRow) (evs : List Event),
      load_data toDT rows = .ok evs → ∀ e ∈ evs, ∀ q, e.duration = .num q →
        e.endSec = some (dtToSec e.start + 60 * q)) := by
  refine ⟨?_, ?_, ?_⟩
  · intro row team
    rfl
  · intro row team hd
    have h1 : pyTrunc row.duration = 90 := by
      rw [hd]
      unfold pyTrunc
      rw [if_pos (by norm_num)]
      norm_num
    have h2 : (teamsnapFields row team).get? 2
        = some (durFmt (pyTrunc row.duration)) := rfl
    rw [h2, h1]
    rfl
  · intro toDT rows evs h e he q hq
    obtain ⟨_, hend⟩ := load_data_ok_mem toDT rows evs h e he
    rw [hend, hq]
    rfl

/-- C10 witness: the 90.9-minute row exports "1:30", while the
normalized event from the concrete 90-minute row keeps its full-precision
end. -/
theorem roster_duration_truncation_witness :
    (teamsnapFields tsRow909 "Red").get? 2 = some "1:30" ∧
    goodEvent.endSec = some (dtToSec goodEvent.start + 60 * 90) := by
  constructor
  · exact roster_duration_truncation.2.1 tsRow909 "Red" rfl
  · exact roster_duration_truncation.2.2 (fun _ => none) [goodRow] [goodEvent]
      load_data_goodRow goodEvent (List.mem_singleton.2 rfl) 90 rfl

/-- The part of one VEVENT block after the DTEND line. -/
def blockTail (row : IcsRow) : String :=
  ("SUMMARY:" ++ row.homeTeam ++ " vs " ++ row.awayTeam ++ "\n") ++
    ("LOCATION:" ++ row.location ++ "\n") ++
    ("DESCRIPTION:" ++ "Game scheduled on " ++ fmtDbY row.date ++ " at " ++
      pyToStr row.time ++ ", duration: " ++ durValStr row.duration ++
      " minutes." ++ "\n") ++
    "END:VEVENT\n"

/-- C8: the export is the fixed header, then exactly one
`BEGIN:VEVENT`…`END:VEVENT` block per input event joined in input order
(no deduplication or sorting), then the footer; each block's `DTSTART`
and `DTEND` are the event's start and end in the local floating
`YYYYMMDDTHHMMSS` format, which never ends in a timezone `Z` suffix
(unlike the `DTSTAMP` format); and the UIDs of one call are pairwise
distinct whenever the DataFrame index labels are (which `read_excel`
guarantees). -/
theorem calendar_export_structure :
    ∀ (now : DateTime) (rows : List (Nat × IcsRow)),
      generate_ics now rows =
        icsHeader ++ String.join (rows.map (eventBlock (fmtUtcStamp now))) ++
          "END:VCALENDAR\n" ∧
      (∀ p ∈ rows, eventBlock (fmtUtcStamp now) p =
        "BEGIN:VEVENT\n" ++ ("UID:" ++ uidOf p.1 ++ "\n") ++
          ("DTSTAMP:" ++ fmtUtcStamp now ++ "\n") ++
          ("DTSTART:" ++ fmtFloating p.2.start ++ "\n") ++
          ("DTEND:" ++ fmtFloating p.2.endT ++ "\n") ++ blockTail p.2) ∧
      (∀ dt : DateTime, dt.time.second < 60 →
        (fmtFloating dt).toList.getLast? ≠ some 'Z' ∧
        (fmtUtcStamp dt).toList.getLast? = some 'Z') ∧
      ((rows.map Prod.fst).Nodup → (rows.map (fun p => uidOf p.1)).Nodup) := by
  intro now rows
  refine ⟨rfl, ?_, ?_, ?_⟩
  · intro p _
    simp [eventBlock, blockTail, String.append_assoc]
  · intro dt hs
    have hpad : ∀ n < 60,
        (pad2 n).data.getLast? ≠ none ∧ (pad2 n).data.getLast? ≠ some 'Z' := by
      decide
    obtain ⟨hne, hnz⟩ := hpad dt.time.second hs
    constructor
    · show ((fmtFloating dt).data).getLast? ≠ some 'Z'
      unfold fmtFloating
      simp only [String.data_append, List.getLast?_append]
      cases hc : (pad2 dt.time.second).data.getLast? with
      | none => exact absurd hc hne
      | some c =>
        rw [hc] at hnz
        simp only [hc, Option.or_some]
        exact hnz
    · show ((fmtUtcStamp dt).data).getLast? = some 'Z'
      unfold fmtUtcStamp
      simp only [String.data_append, List.getLast?_append]
      rfl
  · intro hnodup
    have hmap : rows.map (fun p => uidOf p.1) = (rows.map Prod.fst).map uidOf := by
      rw [List.map_map]
      rfl
    rw [hmap]
    exact List.Nodup.map uidOf_injective hnodup

/-- A concrete exported row (3:00 PM to 4:30 PM on 2024-05-01). -/
def icsRowEx : IcsRow :=
  ⟨⟨⟨2024, 5, 1⟩, ⟨0, 0, 0⟩⟩, .pyStr "3:00 PM", .num 90, "Red", "Blue", "Field 1",
   ⟨⟨2024, 5, 1⟩, ⟨15, 0, 0⟩⟩, ⟨⟨2024, 5, 1⟩, ⟨16, 30, 0⟩⟩⟩

/-- C8 witness: the block decomposition for a concrete event, the
absence of a trailing `Z` on a concrete floating stamp, and UID
distinctness for a concrete two-event export. -/
theorem calendar_export_structure_witness :
    eventBlock (fmtUtcStamp dt2024) (0, icsRowEx) =
      "BEGIN:VEVENT\n" ++ ("UID:" ++ uidOf 0 ++ "\n") ++
        ("DTSTAMP:" ++ fmtUtcStamp dt2024 ++ "\n") ++
        ("DTSTART:" ++ fmtFloating icsRowEx.start ++ "\n") ++
        ("DTEND:" ++ fmtFloating icsRowEx.endT ++ "\n") ++ blockTail icsRowEx ∧
    (fmtFloating dt2024).toList.getLast? ≠ some 'Z' ∧
    ([(0, icsRowEx), (1, icsRowEx)].map (fun p => uidOf p.1)).Nodup := by
  refine ⟨?_, ?_, ?_⟩
  · exact (calendar_export_structure dt2024 [(0, icsRowEx)]).2.1 (0, icsRowEx)
      (List.mem_singleton.2 rfl)
  · exact ((calendar_export_structure dt2024 []).2.2.1 dt2024 (by decide)).1
  · exact (calendar_export_structure dt2024 [(0, icsRowEx), (1, icsRowEx)]).2.2.2
      (by decide)

/-- C9: the `DTSTAMP` value is formatted once, before the event loop, so
every block of one export call embeds the identical
`DTSTAMP:<stamp>` line, however many events are exported. -/
theorem calendar_dtstamp_once :
    ∀ (now : DateTime) (rows : List (Nat × IcsRow)),
      generate_ics now rows =
        icsHeader ++ String.join (rows.map (eventBlock (fmtUtcStamp now))) ++
          "END:VCALENDAR\n" ∧
      ∀ p ∈ rows, ∃ pre post,
        eventBlock (fmtUtcStamp now) p =
          pre ++ ("DTSTAMP:" ++ fmtUtcStamp now ++ "\n") ++ post := by
  intro now rows
  refine ⟨rfl, ?_⟩
  intro p _
  refine ⟨"BEGIN:VEVENT\n" ++ ("UID:" ++ uidOf p.1 ++ "\n"),
    ("DTSTART:" ++ fmtFloating p.2.start ++ "\n") ++
      ("DTEND:" ++ fmtFloating p.2.endT ++ "\n") ++ blockTail p.2, ?_⟩
  simp [eventBlock, blockTail, String.append_assoc]

/-- C9 witness: the shared-DTSTAMP decomposition at a concrete event. -/
theorem calendar_dtstamp_once_witness :
    ∃ pre post, eventBlock (fmtUtcStamp dt2024) (1, icsRowEx) =
      pre ++ ("DTSTAMP:" ++ fmtUtcStamp dt2024 ++ "\n") ++ post :=
  (calendar_dtstamp_once dt2024 [(1, icsRowEx)]).2 (1, icsRowEx)
    (List.mem_singleton.2 rfl)

end FCS
